import Mathlib

/-!
Verification development for the lerobot-panel frontend orchestration layer.

The definitions below are shallow embeddings of the log-analysis functions and
of the calibration / teleoperation page state machines found in
`src/frontend/src/app/teleop/TeleopClientPage.tsx`,
`src/frontend/src/app/page.tsx` and the unnamed calibration page source
(`src/unnamed/part_001`).  JavaScript strings are modelled as Lean `String`
(operating on `List Char` where character-level work is needed); JS numbers
appearing in range rows are modelled as `Int` (none of the verified
properties depend on fractional values); JS objects used as string-keyed maps
are modelled as insertion-ordered association lists.  Character classes of the
JS regexes (`\s`, `\w`) are modelled over ASCII, which covers every marker
string the code matches against.
-/

namespace LerobotPanel

/-- ASCII approximation of the whitespace class trimmed by JS `String.trim`
and matched by the regex class `\s`. -/
def isJsSpace (c : Char) : Bool :=
  c = ' ' || c = '\t' || c = '\n' || c = '\r' || c = '\x0b' || c = '\x0c'

/-- JS `String.prototype.trim` on a character list: drop whitespace from both
ends. -/
def jsTrim (l : List Char) : List Char :=
  ((l.dropWhile isJsSpace).reverse.dropWhile isJsSpace).reverse

/-- JS `String.prototype.toLowerCase` (ASCII). -/
def lowerChars (l : List Char) : List Char :=
  l.map Char.toLower

/-- JS `String.prototype.includes`: `needle` occurs as a contiguous substring
of `hay`. -/
def listContains (needle : List Char) : List Char → Bool
  | [] => needle.isEmpty
  | c :: t => needle.isPrefixOf (c :: t) || listContains needle t

/-- The regex word-character class `\w` (ASCII letters, digits, underscore). -/
def isWordChar (c : Char) : Bool :=
  c.isAlphanum || c = '_'

/-- The word `w` occurs in `s` starting at index `i`. -/
def wordAt (s : List Char) (i : Nat) (w : List Char) : Bool :=
  w.isPrefixOf (s.drop i)

/-- Regex `\b` holds at index `i` when the character entering `i` is a word
character and the one before is not (start of a word). -/
def boundaryBefore (s : List Char) (i : Nat) : Bool :=
  i == 0 || !(isWordChar (s.getD (i - 1) ' '))

/-- Regex `\b` holds just after index `i - 1` when the character before `i`
is a word character and the character at `i` (if any) is not. -/
def boundaryAfter (s : List Char) (i : Nat) : Bool :=
  i == s.length || !(isWordChar (s.getD i ' '))

/-- The character at index `i` exists and is a word character (used for a
`\b` that follows a non-word literal such as `.`). -/
def wordCharAt (s : List Char) (i : Nat) : Bool :=
  isWordChar (s.getD i ' ')

/-- Test of `/^time:\s/i` against a trimmed line
(`TeleopClientPage.tsx` line 48). -/
def timeLineTest (line : String) : Bool :=
  let s := lowerChars (jsTrim line.toList)
  "time:".toList.isPrefixOf s && isJsSpace (s.getD 5 'x')

/-- Test of `/\bleader\b.*\bconnected\.\b/i` against a trimmed line
(`TeleopClientPage.tsx` line 50).  The trailing `\b` after the literal `.`
requires a word character immediately after the dot. -/
def leaderConnectedTest (line : String) : Bool :=
  let s := lowerChars (jsTrim line.toList)
  (List.range (s.length + 1)).any (fun i =>
    wordAt s i "leader".toList && boundaryBefore s i && boundaryAfter s (i + 6) &&
    (List.range (s.length + 1)).any (fun j =>
      decide (i + 6 ≤ j) && wordAt s j "connected.".toList &&
      boundaryBefore s j && wordCharAt s (j + 10)))

/-- Test of `/\bfollower\b.*\bconnected\.\b/i` against a trimmed line
(`TeleopClientPage.tsx` line 51). -/
def followerConnectedTest (line : String) : Bool :=
  let s := lowerChars (jsTrim line.toList)
  (List.range (s.length + 1)).any (fun i =>
    wordAt s i "follower".toList && boundaryBefore s i && boundaryAfter s (i + 8) &&
    (List.range (s.length + 1)).any (fun j =>
      decide (i + 8 ≤ j) && wordAt s j "connected.".toList &&
      boundaryBefore s j && wordCharAt s (j + 10)))

/-- Core of `isTeleopConfirmedStartedFromLogs` over the string entries of the
payload (`TeleopClientPage.tsx` lines 47-52).  The source maps `trim` over
the lines once and then runs the three regex tests; here the trim is fused
into each per-line test. -/
def confirmedStartedLines (lines : List String) : Bool :=
  if lines.any timeLineTest then true
  else lines.any leaderConnectedTest && lines.any followerConnectedTest

/-- A JSON-ish value, modelling the untyped payload fields the websocket
handlers pass to the log-analysis helpers. -/
inductive JsValue where
  | str (s : String)
  | num (n : Int)
  | bool (b : Bool)
  | null
  | arr (l : List JsValue)
  | obj

/-- JS `Array.isArray`. -/
def JsValue.isArr : JsValue → Bool
  | .arr _ => true
  | _ => false

/-- `filter((line): line is string => typeof line === "string")`:
the string entries of an array payload, in order. -/
def stringsOf (l : List JsValue) : List String :=
  l.filterMap fun v => match v with
    | .str s => some s
    | _ => none

/-- `isTeleopConfirmedStartedFromLogs` (`TeleopClientPage.tsx` lines 44-53):
non-array payloads yield `false`; array payloads are filtered to their string
entries, trimmed, and tested. -/
def isTeleopConfirmedStartedFromLogs : JsValue → Bool
  | .arr l => confirmedStartedLines (stringsOf l)
  | _ => false

/-- The role inferred by disconnect detection. -/
inductive Role where
  | leader
  | follower
  deriving DecidableEq

/-- The `errorMarkers` list (`TeleopClientPage.tsx` lines 62-71). -/
def errorMarkers : List String :=
  ["serialtimeoutexception", "write timeout", "could not open port",
   "file not found", "filenotfounderror", "permissionerror",
   "access is denied", "no such file or directory"]

/-- The `leaderHints` list (`TeleopClientPage.tsx` line 79). -/
def leaderHints : List String :=
  ["so101_leader", "so100_leader", "01_leader.py", "leader.py", "so101leader"]

/-- The `followerHints` list (`TeleopClientPage.tsx` line 80). -/
def followerHints : List String :=
  ["so101_follower", "so100_follower", "follower.py", "so101follower"]

/-- The trimmed, non-empty lines of the payload
(`.map(trim).filter(Boolean)`). -/
def cleanedLines (lines0 : List String) : List String :=
  (lines0.map fun l => String.mk (jsTrim l.toList)).filter fun l => l ≠ ""

/-- One of the `hints` occurs (lowercased) in one of the `lines`. -/
def anyLineHasHint (lines : List String) (hints : List String) : Bool :=
  lines.any fun l => hints.any fun h => listContains h.toList (lowerChars l.toList)

/-- Core of `inferDisconnectFromLogs` over the string entries of the payload
(`TeleopClientPage.tsx` lines 57-93). -/
def inferDisconnectLines (lines0 : List String) : Option Role :=
  let lines := cleanedLines lines0
  let hasDisconnectMarker := anyLineHasHint lines errorMarkers
  if !hasDisconnectMarker then none
  else
    let mentionsLeader := anyLineHasHint lines leaderHints
    let mentionsFollower := anyLineHasHint lines followerHints
    if mentionsLeader && !mentionsFollower then some Role.leader
    else if mentionsFollower && !mentionsLeader then some Role.follower
    else some Role.follower

/-- `inferDisconnectFromLogs` (`TeleopClientPage.tsx` lines 55-94):
non-array payloads yield `null`. -/
def inferDisconnectFromLogs : JsValue → Option Role
  | .arr l => inferDisconnectLines (stringsOf l)
  | _ => none

/-- The stuck-joint marker line matched (case-sensitively) by
`extractUnmovedJoints`. -/
def stuckMarker : String :=
  "Some motors have the same min and max values"

/-- Leftmost match of the regex `\[([^\]]+)\]`: the first `[` that is
followed by at least one non-`]` character and then a `]`; returns the
captured group.  A `[` that is not so followed is skipped and the scan
continues, as a backtracking regex engine would. -/
def firstBracketGroup : List Char → Option (List Char)
  | [] => none
  | c :: rest =>
    if c = '[' then
      let grp := rest.takeWhile fun d => d ≠ ']'
      if grp.length ≠ 0 ∧ grp.length < rest.length then some grp
      else firstBracketGroup rest
    else firstBracketGroup rest

/-- `.replace(/['"]/g, "").split(",").map(trim).filter(Boolean)` applied to a
captured bracket group. -/
def parseJointNames (grp : List Char) : List String :=
  let cleaned := String.mk (grp.filter fun c => c ≠ '\x27' && c ≠ '"')
  ((cleaned.splitOn ",").map fun s => String.mk (jsTrim s.toList)).filter
    fun s => s ≠ ""

/-- `logs.slice(idx, idx + 6).join(" ")`: the marker line and the five lines
after it, joined with single spaces, as characters. -/
def windowChars (logs : List String) (idx : Nat) : List Char :=
  (String.intercalate " " ((logs.drop idx).take 6)).toList

/-- A line contains the stuck-joint marker (`line.includes(...)`,
case-sensitive). -/
def hasStuckMarker (line : String) : Bool :=
  listContains stuckMarker.toList line.toList

/-- `extractUnmovedJoints` (`src/frontend/src/app/page.tsx` lines 401-412,
identically in the unnamed calibration page): find the first marker line,
join the six-line window starting there, take the first bracketed group and
split it into trimmed, quote-stripped, non-empty names. -/
def extractUnmovedJoints (logs : List String) : List String :=
  match logs.findIdx? hasStuckMarker with
  | none => []
  | some idx =>
    match firstBracketGroup (windowChars logs idx) with
    | none => []
    | some grp => parseJointNames grp

/-- One per-joint telemetry row as delivered in the websocket payload's
`ranges` array. -/
structure RangeRow where
  name : String
  min : Int
  pos : Int
  max : Int
  deriving DecidableEq

/-- `acc[row.name] = row` on a JS object modelled as an insertion-ordered
association list: overwrite in place if the key exists, append otherwise. -/
def upsertRow (acc : List RangeRow) (row : RangeRow) : List RangeRow :=
  if acc.any fun r => r.name = row.name then
    acc.map fun r => if r.name = row.name then row else r
  else acc ++ [row]

/-- `(payload.ranges || []).reduce((acc, row) => { acc[row.name] = row;
return acc; }, {})` (`page.tsx` lines 320-325, unnamed calibration page
lines 281-286). -/
def buildRanges (rows : List RangeRow) : List RangeRow :=
  rows.foldl upsertRow []

/-- Lookup of a joint name in the built mapping. -/
def lookupRange (acc : List RangeRow) (n : String) : Option RangeRow :=
  acc.find? fun r => r.name = n

/-- The last-seen row for joint `n` in an ordered row sequence. -/
def lastSeen (rows : List RangeRow) (n : String) : Option RangeRow :=
  rows.reverse.find? fun r => r.name = n

/-- A raw output line as seen by the range-row pipeline: either a line that
parses as a per-joint telemetry row or an unrelated line. -/
inductive OutputItem where
  | row (r : RangeRow)
  | other (s : String)

/-- The telemetry rows of an interleaved output sequence, in order. -/
def rowsOf (items : List OutputItem) : List RangeRow :=
  items.filterMap fun i => match i with
    | .row r => some r
    | .other _ => none

/-- One captured joint entry (`JointCalibration`). -/
structure Joint where
  name : String
  min : Int
  max : Int
  current : Int
  deriving DecidableEq

/-- The pending override prompt record
(`calibrationOverridePrompt` state). -/
structure OverridePrompt where
  sessionId : String
  line : String
  ready : Bool
  deriving DecidableEq

/-- The calibration page state relevant to the orchestration effects
(unnamed calibration page source).  UI-only fields (messages, modal
visibility of the intro/console, loading flags) are omitted; every field
read or written by the modelled effects and handlers is present. -/
structure CalState where
  sessionId : Option String
  logs : List String
  running : Bool
  returnCode : Option Int
  ranges : List RangeRow
  started : Bool
  ready : Bool
  overridePrompt : Option OverridePrompt
  overrideHandled : Bool
  joints : List Joint
  errorModal : Bool
  errorJoints : List String
  deriving DecidableEq

/-- The override marker matched (lowercased) against each log line
(unnamed calibration page lines 321-323). -/
def overrideMarker : String :=
  "press enter to use provided calibration file associated with the id"

/-- A log line contains the override marker after lowercasing. -/
def hasOverrideMarker (line : String) : Bool :=
  listContains overrideMarker.toList (lowerChars line.toList)

/-- First half of the override-prompt detection effect (unnamed calibration
page lines 315-320): a pending prompt belonging to a different session is
cleared. -/
def clearMismatchedPrompt (sid : String) (st : CalState) : CalState :=
  match st.overridePrompt with
  | some p => if p.sessionId ≠ sid then { st with overridePrompt := none } else st
  | none => st

/-- Second half of the override-prompt detection effect (unnamed calibration
page lines 321-335): the first marker line, if the prompt has not been
handled and no ready prompt is already shown, becomes the pending prompt and
un-starts the sweep. -/
def detectPromptLine (sid : String) (st : CalState) : CalState :=
  match st.logs.find? hasOverrideMarker with
  | some line =>
    if !st.overrideHandled &&
        (match st.overridePrompt with
         | none => true
         | some p => !p.ready) then
      { st with overridePrompt := some ⟨sid, line, true⟩, started := false }
    else st
  | none => st

/-- The override-prompt detection effect (unnamed calibration page lines
310-336): with no session the prompt is cleared; otherwise mismatched
prompts are cleared and a fresh marker line is promoted to a pending
prompt. -/
def overrideDetectEffect (st : CalState) : CalState :=
  match st.sessionId with
  | none => { st with overridePrompt := none }
  | some sid => detectPromptLine sid (clearMismatchedPrompt sid st)

/-- The range-freezing half of the capture effect (unnamed calibration page
lines 373-383): observed ranges, if any, become the joint list. -/
def captureJoints (st : CalState) : CalState :=
  if st.ranges ≠ [] then
    { st with joints := st.ranges.map fun r =>
        { name := r.name, min := r.min, max := r.max, current := r.pos } }
  else st

/-- The capture effect (unnamed calibration page lines 369-387): once the
sweep has started, the session is not yet ready and the process is no longer
running, freeze the observed ranges into joints and mark the calibration
ready. -/
def captureEffect (st : CalState) : CalState :=
  match st.sessionId with
  | none => st
  | some _ =>
    if st.started ∧ ¬st.ready ∧ ¬st.running then
      { captureJoints st with ready := true, started := false }
    else st

/-- `calibrationFailed` (unnamed calibration page lines 389-390):
`!calibrationRunning && calibrationReturnCode !== null &&
calibrationReturnCode !== 0`. -/
def calibrationFailed (st : CalState) : Bool :=
  !st.running &&
    (match st.returnCode with
     | some c => c ≠ 0
     | none => false)

/-- The failure effect (unnamed calibration page lines 405-417): on a failed
calibration, combine stuck joints parsed from the logs with joints whose
captured span is below the near-zero threshold (`|max - min| < 1`, exact on
integers: `max = min`) and open the error modal. -/
def failureEffect (st : CalState) : CalState :=
  if calibrationFailed st then
    let stuckFromLogs := extractUnmovedJoints st.logs
    let zeroSpanJoints := (st.ranges.filter fun r => (r.max - r.min).natAbs < 1).map
      fun r => r.name
    { st with
      errorJoints := (stuckFromLogs ++ zeroSpanJoints).eraseDups,
      errorModal := true }
  else st

/-- The derived effects run after every state change, in source order. -/
def runEffects (st : CalState) : CalState :=
  failureEffect (captureEffect (overrideDetectEffect st))

/-- One websocket status payload for a calibration session (unnamed
calibration page lines 253-289): `logs`, coerced `running`, `return_code`
when it is a number, and the `ranges` array. -/
structure WsPayload where
  logs : List String
  running : Bool
  returnCode : Option Int
  ranges : List RangeRow

/-- Applying a websocket payload to the page state: non-empty incoming logs
replace the buffer, `running` and `return_code` are overwritten, and the
`ranges` array is reduced into the per-name mapping. -/
def applyWsMessage (p : WsPayload) (st : CalState) : CalState :=
  { st with
    logs := if p.logs ≠ [] then p.logs else st.logs,
    running := p.running,
    returnCode := p.returnCode,
    ranges := buildRanges p.ranges }

/-- `sendEnterToCalibration` (unnamed calibration page lines 448-466): a
pending override prompt or a missing session makes it a no-op; otherwise the
ENTER is sent and the sweep is marked started. -/
def sendEnterToCalibration (st : CalState) : CalState :=
  match st.overridePrompt with
  | some _ => st
  | none =>
    match st.sessionId with
    | none => st
    | some _ => { st with started := true }

/-- `continueCalibrationOverride` (unnamed calibration page lines 475-490):
with a live session and a ready prompt, the override-confirm byte is sent,
the prompt is dismissed, the handled flag set, and the sweep un-started. -/
def continueCalibrationOverride (st : CalState) : CalState :=
  match st.sessionId with
  | none => st
  | some _ =>
    match st.overridePrompt with
    | some p =>
      if p.ready then
        { st with overridePrompt := none, overrideHandled := true, started := false }
      else st
    | none => st

/-- `cleanupCalibrationSession` (unnamed calibration page lines 141-159)
restricted to the modelled fields. -/
def cleanupCalibrationSession (st : CalState) : CalState :=
  { st with
    sessionId := none,
    logs := [],
    running := false,
    ranges := [],
    started := false,
    returnCode := none,
    errorModal := false,
    errorJoints := [],
    overridePrompt := none,
    overrideHandled := false }

/-- `cancelCalibrationOverride` (unnamed calibration page lines 492-513):
plain confirm is sent to keep the existing file, then the prompt is
dismissed, handled is set, and the whole session is cleaned up (the cleanup
resets the handled flag again, but also clears the session and its logs). -/
def cancelCalibrationOverride (st : CalState) : CalState :=
  cleanupCalibrationSession
    { st with overridePrompt := none, overrideHandled := true, ready := false }

/-- The externally triggered events of the calibration page that the claims
exercise. -/
inductive CalEvent where
  | ws (p : WsPayload)
  | sendEnter
  | overrideContinue
  | overrideCancel

/-- One event followed by the derived effects. -/
def calStep (e : CalEvent) (st : CalState) : CalState :=
  runEffects
    (match e with
     | .ws p => applyWsMessage p st
     | .sendEnter => sendEnterToCalibration st
     | .overrideContinue => continueCalibrationOverride st
     | .overrideCancel => cancelCalibrationOverride st)

/-- A sequence of events applied in order. -/
def calRun (st : CalState) (es : List CalEvent) : CalState :=
  es.foldl (fun s e => calStep e s) st

/-- `mergeDisconnectRoles` (`TeleopClientPage.tsx` lines 96-97):
`Array.from(new Set([...existing, ...incoming]))` keeps first occurrences in
order. -/
def mergeDisconnectRoles (existing incoming : List Role) : List Role :=
  (existing ++ incoming).eraseDups

/-- The teleop page state read or written by the start handler and the
presence-offline effect (`TeleopClientPage.tsx`).  Timestamps
(`Date.now()`) are modelled as natural-number milliseconds passed in
explicitly. -/
structure TeleopState where
  suppressUntil : Nat
  disconnectModalOpen : Bool
  disconnectAlertRoles : List Role
  teleopStarting : Bool
  running : Bool
  logs : List String
  prevLeaderStatus : Option String
  prevFollowerStatus : Option String
  deriving DecidableEq

/-- The part of the `start` handler executed before awaiting the backend
(`TeleopClientPage.tsx` lines 270-281): mark starting, arm the disconnect
grace window `now + 2500`, and reset the log buffer to the command echo. -/
def startTeleopAt (now : Nat) (commandLine : String) (st : TeleopState) : TeleopState :=
  { st with
    teleopStarting := true,
    suppressUntil := now + 2500,
    logs := [commandLine] }

/-- The follower/leader role list derived from a fleet snapshot's statuses
(`TeleopClientPage.tsx` lines 231-233). -/
def offlineRolesOf (leaderStatus followerStatus : Option String) : List Role :=
  (if leaderStatus = some "offline" then [Role.leader] else []) ++
    (if followerStatus = some "offline" then [Role.follower] else [])

/-- The presence-offline effect (`TeleopClientPage.tsx` lines 223-245) at
wall-clock time `now`: offline roles are always merged into the alert set,
but the disconnect modal is only opened when `now` has passed the grace
deadline; the latest statuses are recorded either way. -/
def presenceTick (now : Nat) (leaderStatus followerStatus : Option String)
    (st : TeleopState) : TeleopState :=
  let offlineRoles := offlineRolesOf leaderStatus followerStatus
  let st1 :=
    if offlineRoles ≠ [] then
      let st2 := { st with
        disconnectAlertRoles := mergeDisconnectRoles st.disconnectAlertRoles offlineRoles }
      if st.suppressUntil ≤ now then { st2 with disconnectModalOpen := true } else st2
    else st
  { st1 with prevLeaderStatus := leaderStatus, prevFollowerStatus := followerStatus }

/-- The pure signals the pages derive from a session's log buffer: the
override prompt line (unnamed calibration page lines 321-323), the stuck
joints, the started confirmation and the disconnect inference. -/
structure ExtractedSignals where
  overridePromptLine : Option String
  stuckJointNames : List String
  confirmedStarted : Bool
  disconnectRole : Option Role
  deriving DecidableEq

/-- A session's buffered observable state as held by the pages. -/
structure SessionBuffers where
  logs : List String
  running : Bool
  returnCode : Option Int
  deriving DecidableEq

/-- `overridePromptLine`: the first log line containing the lowercased
override marker. -/
def findOverridePromptLine (logs : List String) : Option String :=
  logs.find? hasOverrideMarker

/-- All four log analyses run against a session buffer, presented in
state-passing form: the source functions only read their argument, so the
buffer they were handed comes back untouched. -/
def analyzeBuffer (st : SessionBuffers) : ExtractedSignals × SessionBuffers :=
  (⟨findOverridePromptLine st.logs, extractUnmovedJoints st.logs,
    confirmedStartedLines st.logs, inferDisconnectLines st.logs⟩, st)

/-- Spec-side reading: some line matches the timestamp-prefixed pattern. -/
def hasTimestampLine (lines : List String) : Bool :=
  lines.any timeLineTest

/-- Spec-side reading: some line matches the leader-connected marker. -/
def hasLeaderConnectedLine (lines : List String) : Bool :=
  lines.any leaderConnectedTest

/-- Spec-side reading: some line matches the follower-connected marker. -/
def hasFollowerConnectedLine (lines : List String) : Bool :=
  lines.any followerConnectedTest

/-- Claim C2: for every list of log lines, `confirmedStarted` is true
exactly when some line matches the timestamp-prefixed pattern, or both a
leader-connected and a follower-connected marker line are present.  In
particular, with no timestamp line, a leader-connected or a
follower-connected marker alone yields `false` (the Boolean conjunction on
the right requires both). -/
theorem confirmedStarted_characterization (lines : List String) :
    confirmedStartedLines lines =
      (hasTimestampLine lines ||
        (hasLeaderConnectedLine lines && hasFollowerConnectedLine lines)) := by
  unfold confirmedStartedLines hasTimestampLine hasLeaderConnectedLine
    hasFollowerConnectedLine
  cases h : lines.any timeLineTest <;> simp [h]

/-- Spec-side reading: some cleaned line mentions a disconnect-error
marker. -/
def hasDisconnectMarker (lines0 : List String) : Bool :=
  anyLineHasHint (cleanedLines lines0) errorMarkers

/-- Spec-side reading: some cleaned line mentions a leader-specific hint. -/
def mentionsLeaderHint (lines0 : List String) : Bool :=
  anyLineHasHint (cleanedLines lines0) leaderHints

/-- Spec-side reading: some cleaned line mentions a follower-specific
hint. -/
def mentionsFollowerHint (lines0 : List String) : Bool :=
  anyLineHasHint (cleanedLines lines0) followerHints

/-- Claim C8: disconnect inference yields no role without a disconnect
marker; with a marker it yields `leader` exactly when a leader hint is
mentioned and no follower hint is, and defaults to `follower` in every
other case (follower-only, both, or neither). -/
theorem inferDisconnect_characterization (lines0 : List String) :
    inferDisconnectLines lines0 =
      (if hasDisconnectMarker lines0 then
        some (if mentionsLeaderHint lines0 && !mentionsFollowerHint lines0 then
          Role.leader else Role.follower)
      else none) := by
  unfold inferDisconnectLines hasDisconnectMarker mentionsLeaderHint
    mentionsFollowerHint
  cases hm : anyLineHasHint (cleanedLines lines0) errorMarkers <;>
    cases hl : anyLineHasHint (cleanedLines lines0) leaderHints <;>
      cases hf : anyLineHasHint (cleanedLines lines0) followerHints <;>
        simp [hm, hl, hf]

/-- Claim C10: the payload-level log analyses are total over arbitrary
payloads: a non-array payload yields `false` (respectively `none`) rather
than an error, and the results over array payloads depend only on the
string entries, so non-string entries are ignored. -/
theorem logAnalyses_total_over_payloads (v : JsValue) (l1 l2 : List JsValue) :
    (v.isArr = false →
      isTeleopConfirmedStartedFromLogs v = false ∧ inferDisconnectFromLogs v = none) ∧
    (stringsOf l1 = stringsOf l2 →
      isTeleopConfirmedStartedFromLogs (JsValue.arr l1) =
          isTeleopConfirmedStartedFromLogs (JsValue.arr l2) ∧
        inferDisconnectFromLogs (JsValue.arr l1) =
          inferDisconnectFromLogs (JsValue.arr l2)) := by
  constructor
  · intro hv
    cases v <;> simp_all [JsValue.isArr, isTeleopConfirmedStartedFromLogs,
      inferDisconnectFromLogs]
  · intro hs
    simp [isTeleopConfirmedStartedFromLogs, inferDisconnectFromLogs, hs]

/-- Witness for C10 at concrete payloads: the number `3` is rejected, and
inserting non-string entries around the same string entry leaves both
analyses unchanged. -/
theorem logAnalyses_total_over_payloads_witness :
    (JsValue.isArr (JsValue.num 3) = false ∧
      isTeleopConfirmedStartedFromLogs (JsValue.num 3) = false ∧
      inferDisconnectFromLogs (JsValue.num 3) = none) ∧
    (isTeleopConfirmedStartedFromLogs
          (JsValue.arr [JsValue.str "time: 3", JsValue.num 1]) =
        isTeleopConfirmedStartedFromLogs
          (JsValue.arr [JsValue.null, JsValue.str "time: 3"]) ∧
      inferDisconnectFromLogs (JsValue.arr [JsValue.str "time: 3", JsValue.num 1]) =
        inferDisconnectFromLogs (JsValue.arr [JsValue.null, JsValue.str "time: 3"])) := by
  refine ⟨⟨rfl, ?_⟩, ?_⟩
  · exact (logAnalyses_total_over_payloads (JsValue.num 3) [] []).1 rfl
  · exact (logAnalyses_total_over_payloads (JsValue.num 3)
      [JsValue.str "time: 3", JsValue.num 1]
      [JsValue.null, JsValue.str "time: 3"]).2 rfl

/-- Claim C9: the log analyses are deterministic and side-effect-free: they
leave the session buffer untouched, two buffers agreeing on their log lines
produce equal signals (the results depend on no other state), and re-running
the analysis on the buffer it returned reproduces the same signals. -/
theorem analyzeBuffer_deterministic_pure (st st' : SessionBuffers)
    (h : st.logs = st'.logs) :
    (analyzeBuffer st).2 = st ∧
      (analyzeBuffer st).1 = (analyzeBuffer st').1 ∧
      (analyzeBuffer ((analyzeBuffer st).2)).1 = (analyzeBuffer st).1 := by
  refine ⟨rfl, ?_, rfl⟩
  simp [analyzeBuffer, h]

/-- Witness for C9: two buffers sharing the same log lines but different
running/exit fields give identical signals, and the buffer comes back
unchanged. -/
theorem analyzeBuffer_deterministic_pure_witness :
    (analyzeBuffer ⟨["time: 3"], true, none⟩).2 = ⟨["time: 3"], true, none⟩ ∧
      (analyzeBuffer ⟨["time: 3"], true, none⟩).1 =
        (analyzeBuffer ⟨["time: 3"], false, some 1⟩).1 ∧
      (analyzeBuffer ((analyzeBuffer ⟨["time: 3"], true, none⟩).2)).1 =
        (analyzeBuffer ⟨["time: 3"], true, none⟩).1 :=
  analyzeBuffer_deterministic_pure ⟨["time: 3"], true, none⟩
    ⟨["time: 3"], false, some 1⟩ rfl

/-- Claim C3: after a start request at time `t` arms the grace window, a
presence-offline transition strictly inside the window (`now < t + 2500`)
leaves the disconnect modal as it was, while one at or after the deadline
(`t + 2500 ≤ now`) opens it. -/
theorem presenceOffline_grace_window (st : TeleopState) (t now : Nat)
    (cmd : String) (ls fs : Option String)
    (hoff : offlineRolesOf ls fs ≠ []) :
    (now < t + 2500 →
      (presenceTick now ls fs (startTeleopAt t cmd st)).disconnectModalOpen =
        st.disconnectModalOpen) ∧
    (t + 2500 ≤ now →
      (presenceTick now ls fs (startTeleopAt t cmd st)).disconnectModalOpen = true) := by
  constructor
  · intro hlt
    simp [presenceTick, startTeleopAt, hoff, Nat.not_le_of_lt hlt]
  · intro hle
    simp [presenceTick, startTeleopAt, hoff, hle]

/-- Witness for C3: with the follower reported offline, a tick 100 ms after
start leaves the modal closed and a tick at exactly 2500 ms opens it. -/
theorem presenceOffline_grace_window_witness :
    (presenceTick 100 (some "online") (some "offline")
        (startTeleopAt 0 "cmd" ⟨0, false, [], false, false, [], none, none⟩)).disconnectModalOpen =
      false ∧
    (presenceTick 2500 (some "online") (some "offline")
        (startTeleopAt 0 "cmd" ⟨0, false, [], false, false, [], none, none⟩)).disconnectModalOpen =
      true := by
  constructor
  · exact (presenceOffline_grace_window ⟨0, false, [], false, false, [], none, none⟩
      0 100 "cmd" (some "online") (some "offline") (by decide)).1 (by decide)
  · exact (presenceOffline_grace_window ⟨0, false, [], false, false, [], none, none⟩
      0 2500 "cmd" (some "online") (some "offline") (by decide)).2 (by decide)

theorem lookupRange_map_replace (acc : List RangeRow) (r : RangeRow) (n : String) :
    lookupRange (acc.map fun x => if x.name = r.name then r else x) n =
      (if r.name = n then
        (if acc.any (fun x => x.name = n) then some r else none)
      else lookupRange acc n) := by
  induction acc with
  | nil => simp [lookupRange]
  | cons a t ih =>
    by_cases ha : a.name = r.name
    · by_cases hn : r.name = n
      · simp [lookupRange, List.find?, ha, hn, List.any_cons]
      · have han : ¬a.name = n := by rw [ha]; exact hn
        simp only [List.map_cons, lookupRange, List.find?, if_pos ha]
        simp only [lookupRange] at ih
        simp [hn, decide_eq_true_eq, ih, han, lookupRange]
    · by_cases han : a.name = n
      · have hn : ¬r.name = n := fun h => ha (han.trans h.symm)
        simp only [List.map_cons, if_neg ha, lookupRange, List.find?]
        simp [han, hn]
      · simp only [List.map_cons, lookupRange, List.find?, if_neg ha]
        simp only [lookupRange] at ih
        simp [han, decide_eq_true_eq, ih, lookupRange, List.any_cons]

theorem lookupRange_upsertRow (acc : List RangeRow) (r : RangeRow) (n : String) :
    lookupRange (upsertRow acc r) n =
      (if r.name = n then some r else lookupRange acc n) := by
  unfold upsertRow
  by_cases hc : (acc.any fun x => x.name = r.name) = true
  · rw [if_pos hc, lookupRange_map_replace]
    by_cases hn : r.name = n
    · subst hn
      simp [hc]
    · simp [hn]
  · rw [if_neg hc]
    unfold lookupRange
    rw [List.find?_append]
    by_cases hn : r.name = n
    · have hnone : acc.find? (fun x => decide (x.name = n)) = none := by
        rw [List.find?_eq_none]
        intro x hx hpx
        exact hc (List.any_eq_true.mpr ⟨x, hx, by
          simp only [decide_eq_true_eq] at hpx ⊢
          rw [hpx, hn]⟩)
      simp [hnone, List.find?, hn, lookupRange]
    · have hsingle : List.find? (fun x => decide (x.name = n)) [r] = none := by
        simp [List.find?, hn]
      rw [hsingle]
      cases hacc : acc.find? (fun x => decide (x.name = n)) <;>
        simp [lookupRange, hacc, hn]

theorem lookupRange_foldl_upsertRow (rows : List RangeRow) (acc : List RangeRow)
    (n : String) :
    lookupRange (rows.foldl upsertRow acc) n =
      (match lastSeen rows n with
       | some r => some r
       | none => lookupRange acc n) := by
  induction rows generalizing acc with
  | nil => simp [lastSeen]
  | cons r t ih =>
    rw [List.foldl_cons, ih]
    unfold lastSeen
    rw [List.reverse_cons, List.find?_append, lookupRange_upsertRow]
    cases ht : t.reverse.find? (fun x => decide (x.name = n)) with
    | some x => simp [Option.or]
    | none =>
      by_cases hn : r.name = n <;> simp [Option.or, List.find?, hn]

theorem names_upsertRow_of_mem (acc : List RangeRow) (r : RangeRow)
    (hc : (acc.any fun x => x.name = r.name) = true) :
    (upsertRow acc r).map (fun x => x.name) = acc.map fun x => x.name := by
  unfold upsertRow
  rw [if_pos hc, List.map_map]
  apply List.map_congr_left
  intro a _
  by_cases ha : a.name = r.name <;> simp [ha]

theorem nodup_names_upsertRow (acc : List RangeRow) (r : RangeRow)
    (h : (acc.map fun x => x.name).Nodup) :
    ((upsertRow acc r).map fun x => x.name).Nodup := by
  by_cases hc : (acc.any fun x => x.name = r.name) = true
  · rw [names_upsertRow_of_mem acc r hc]
    exact h
  · unfold upsertRow
    rw [if_neg hc, List.map_append]
    rw [List.nodup_append]
    refine ⟨h, List.nodup_singleton _, ?_⟩
    intro x hx hxr
    simp only [List.map_cons, List.map_nil, List.mem_singleton] at hxr
    subst hxr
    rcases List.mem_map.mp hx with ⟨a, ha, hname⟩
    exact hc (List.any_eq_true.mpr ⟨a, ha, by simp [hname]⟩)

theorem nodup_names_foldl_upsertRow (rows : List RangeRow) (acc : List RangeRow)
    (h : (acc.map fun x => x.name).Nodup) :
    ((rows.foldl upsertRow acc).map fun x => x.name).Nodup := by
  induction rows generalizing acc with
  | nil => exact h
  | cons r t ih =>
    rw [List.foldl_cons]
    exact ih (upsertRow acc r) (nodup_names_upsertRow acc r h)

/-- Claim C5: for every sequence of range rows arbitrarily interleaved with
unrelated output lines, the derived `rangeRows` mapping has no duplicate
joint names, and each name resolves to exactly the last-seen row for that
name (and to nothing when the name never occurred). -/
theorem rangeRows_last_writer_wins (items : List OutputItem) (n : String) :
    ((buildRanges (rowsOf items)).map fun r => r.name).Nodup ∧
      lookupRange (buildRanges (rowsOf items)) n = lastSeen (rowsOf items) n := by
  constructor
  · exact nodup_names_foldl_upsertRow (rowsOf items) [] (by simp)
  · rw [buildRanges, lookupRange_foldl_upsertRow]
    cases h : lastSeen (rowsOf items) n <;> simp [lookupRange]

/-- Claim C4: `stuckJointNames` yields the empty list whenever no line
contains the stuck-joint marker; with the first marker line at index `idx`,
it yields the empty list when the six-line window starting at the marker
contains no bracketed group, and otherwise the quote-stripped, trimmed,
non-empty comma-separated names of the first bracketed group in that
window. -/
theorem stuckJointNames_characterization (logs : List String) :
    ((∀ l ∈ logs, hasStuckMarker l = false) → extractUnmovedJoints logs = []) ∧
    (∀ idx, logs.findIdx? hasStuckMarker = some idx →
      (firstBracketGroup (windowChars logs idx) = none →
        extractUnmovedJoints logs = []) ∧
      (∀ grp, firstBracketGroup (windowChars logs idx) = some grp →
        extractUnmovedJoints logs = parseJointNames grp)) := by
  refine ⟨?_, ?_⟩
  · intro habs
    have hidx : logs.findIdx? hasStuckMarker = none := by
      rw [List.findIdx?_eq_none_iff]
      intro x hx
      simp [habs x hx]
    simp [extractUnmovedJoints, hidx]
  · intro idx hidx
    refine ⟨?_, ?_⟩
    · intro hbr
      simp [extractUnmovedJoints, hidx, hbr]
    · intro grp hbr
      simp [extractUnmovedJoints, hidx, hbr]

/-- Witness for C4 at a concrete log buffer: the marker line is found at
index 1, the bracketed list sits on the following line inside the window,
and the two double-quoted names are returned. -/
theorem stuckJointNames_characterization_witness :
    extractUnmovedJoints
        ["sweep done",
         "ERROR Some motors have the same min and max values",
         "stuck: [\"elbow\", \"wrist_roll\"]"] =
      parseJointNames "\"elbow\", \"wrist_roll\"".toList :=
  ((stuckJointNames_characterization
      ["sweep done",
       "ERROR Some motors have the same min and max values",
       "stuck: [\"elbow\", \"wrist_roll\"]"]).2 1 (by decide)).2
    "\"elbow\", \"wrist_roll\"".toList (by decide)

theorem applyWsMessage_keeps (p : WsPayload) (st : CalState) :
    (applyWsMessage p st).sessionId = st.sessionId ∧
      (applyWsMessage p st).overridePrompt = st.overridePrompt ∧
      (applyWsMessage p st).overrideHandled = st.overrideHandled ∧
      (applyWsMessage p st).started = st.started ∧
      (applyWsMessage p st).ready = st.ready ∧
      (applyWsMessage p st).joints = st.joints :=
  ⟨rfl, rfl, rfl, rfl, rfl, rfl⟩

theorem clearMismatchedPrompt_keeps (sid : String) (st : CalState) :
    (clearMismatchedPrompt sid st).sessionId = st.sessionId ∧
      (clearMismatchedPrompt sid st).logs = st.logs ∧
      (clearMismatchedPrompt sid st).running = st.running ∧
      (clearMismatchedPrompt sid st).returnCode = st.returnCode ∧
      (clearMismatchedPrompt sid st).ranges = st.ranges ∧
      (clearMismatchedPrompt sid st).started = st.started ∧
      (clearMismatchedPrompt sid st).ready = st.ready ∧
      (clearMismatchedPrompt sid st).joints = st.joints ∧
      (clearMismatchedPrompt sid st).overrideHandled = st.overrideHandled ∧
      (clearMismatchedPrompt sid st).errorModal = st.errorModal ∧
      (clearMismatchedPrompt sid st).errorJoints = st.errorJoints := by
  unfold clearMismatchedPrompt
  split
  · split <;> exact ⟨rfl, rfl, rfl, rfl, rfl, rfl, rfl, rfl, rfl, rfl, rfl⟩
  · exact ⟨rfl, rfl, rfl, rfl, rfl, rfl, rfl, rfl, rfl, rfl, rfl⟩

theorem detectPromptLine_keeps (sid : String) (st : CalState) :
    (detectPromptLine sid st).sessionId = st.sessionId ∧
      (detectPromptLine sid st).logs = st.logs ∧
      (detectPromptLine sid st).running = st.running ∧
      (detectPromptLine sid st).returnCode = st.returnCode ∧
      (detectPromptLine sid st).ranges = st.ranges ∧
      (detectPromptLine sid st).ready = st.ready ∧
      (detectPromptLine sid st).joints = st.joints ∧
      (detectPromptLine sid st).overrideHandled = st.overrideHandled ∧
      (detectPromptLine sid st).errorModal = st.errorModal ∧
      (detectPromptLine sid st).errorJoints = st.errorJoints := by
  unfold detectPromptLine
  split
  · split <;> exact ⟨rfl, rfl, rfl, rfl, rfl, rfl, rfl, rfl, rfl, rfl⟩
  · exact ⟨rfl, rfl, rfl, rfl, rfl, rfl, rfl, rfl, rfl, rfl⟩

theorem overrideDetectEffect_keeps (st : CalState) :
    (overrideDetectEffect st).sessionId = st.sessionId ∧
      (overrideDetectEffect st).logs = st.logs ∧
      (overrideDetectEffect st).running = st.running ∧
      (overrideDetectEffect st).returnCode = st.returnCode ∧
      (overrideDetectEffect st).ranges = st.ranges ∧
      (overrideDetectEffect st).ready = st.ready ∧
      (overrideDetectEffect st).joints = st.joints ∧
      (overrideDetectEffect st).overrideHandled = st.overrideHandled ∧
      (overrideDetectEffect st).errorModal = st.errorModal ∧
      (overrideDetectEffect st).errorJoints = st.errorJoints := by
  unfold overrideDetectEffect
  split
  · exact ⟨rfl, rfl, rfl, rfl, rfl, rfl, rfl, rfl, rfl, rfl⟩
  · rename_i sid heq
    have hc := clearMismatchedPrompt_keeps sid st
    have hd := detectPromptLine_keeps sid (clearMismatchedPrompt sid st)
    exact ⟨hd.1.trans hc.1, hd.2.1.trans hc.2.1, hd.2.2.1.trans hc.2.2.1,
      hd.2.2.2.1.trans hc.2.2.2.1, hd.2.2.2.2.1.trans hc.2.2.2.2.1,
      hd.2.2.2.2.2.1.trans hc.2.2.2.2.2.2.1,
      hd.2.2.2.2.2.2.1.trans hc.2.2.2.2.2.2.2.1,
      hd.2.2.2.2.2.2.2.1.trans hc.2.2.2.2.2.2.2.2.1,
      hd.2.2.2.2.2.2.2.2.1.trans hc.2.2.2.2.2.2.2.2.2.1,
      hd.2.2.2.2.2.2.2.2.2.trans hc.2.2.2.2.2.2.2.2.2.2⟩

theorem detectPromptLine_of_handled (sid : String) (st : CalState)
    (h : st.overrideHandled = true) :
    detectPromptLine sid st = st := by
  unfold detectPromptLine
  split
  · rw [if_neg]
    simp [h]
  · rfl

theorem clearMismatchedPrompt_of_none (sid : String) (st : CalState)
    (hp : st.overridePrompt = none) :
    clearMismatchedPrompt sid st = st := by
  unfold clearMismatchedPrompt
  rw [hp]

theorem overrideDetectEffect_started_of_handled (st : CalState)
    (h : st.overrideHandled = true) :
    (overrideDetectEffect st).started = st.started := by
  unfold overrideDetectEffect
  split
  · rfl
  · rename_i sid heq
    have hc := clearMismatchedPrompt_keeps sid st
    rw [detectPromptLine_of_handled sid _ (hc.2.2.2.2.2.2.2.2.1.trans h)]
    exact hc.2.2.2.2.2.1

theorem overrideDetectEffect_prompt_stays_none (st : CalState)
    (h : st.overrideHandled = true ∨ st.sessionId = none)
    (hp : st.overridePrompt = none) :
    (overrideDetectEffect st).overridePrompt = none := by
  unfold overrideDetectEffect
  split
  · rfl
  · rename_i sid heq
    have hh : st.overrideHandled = true := by
      rcases h with hh | hcontra
      · exact hh
      · rw [heq] at hcontra; exact absurd hcontra (by simp)
    rw [clearMismatchedPrompt_of_none sid st hp, detectPromptLine_of_handled sid st hh]
    exact hp

theorem captureJoints_keeps (st : CalState) :
    (captureJoints st).sessionId = st.sessionId ∧
      (captureJoints st).logs = st.logs ∧
      (captureJoints st).running = st.running ∧
      (captureJoints st).returnCode = st.returnCode ∧
      (captureJoints st).ranges = st.ranges ∧
      (captureJoints st).started = st.started ∧
      (captureJoints st).ready = st.ready ∧
      (captureJoints st).overridePrompt = st.overridePrompt ∧
      (captureJoints st).overrideHandled = st.overrideHandled ∧
      (captureJoints st).errorModal = st.errorModal ∧
      (captureJoints st).errorJoints = st.errorJoints := by
  unfold captureJoints
  split <;> exact ⟨rfl, rfl, rfl, rfl, rfl, rfl, rfl, rfl, rfl, rfl, rfl⟩

theorem captureEffect_keeps (st : CalState) :
    (captureEffect st).sessionId = st.sessionId ∧
      (captureEffect st).logs = st.logs ∧
      (captureEffect st).running = st.running ∧
      (captureEffect st).returnCode = st.returnCode ∧
      (captureEffect st).ranges = st.ranges ∧
      (captureEffect st).overridePrompt = st.overridePrompt ∧
      (captureEffect st).overrideHandled = st.overrideHandled ∧
      (captureEffect st).errorModal = st.errorModal ∧
      (captureEffect st).errorJoints = st.errorJoints := by
  unfold captureEffect
  split
  · exact ⟨rfl, rfl, rfl, rfl, rfl, rfl, rfl, rfl, rfl⟩
  · split
    · have hj := captureJoints_keeps st
      exact ⟨hj.1, hj.2.1, hj.2.2.1, hj.2.2.2.1, hj.2.2.2.2.1,
        hj.2.2.2.2.2.2.2.1, hj.2.2.2.2.2.2.2.2.1, hj.2.2.2.2.2.2.2.2.2.1,
        hj.2.2.2.2.2.2.2.2.2.2⟩
    · exact ⟨rfl, rfl, rfl, rfl, rfl, rfl, rfl, rfl, rfl⟩

theorem failureEffect_keeps (st : CalState) :
    (failureEffect st).sessionId = st.sessionId ∧
      (failureEffect st).logs = st.logs ∧
      (failureEffect st).running = st.running ∧
      (failureEffect st).returnCode = st.returnCode ∧
      (failureEffect st).ranges = st.ranges ∧
      (failureEffect st).started = st.started ∧
      (failureEffect st).ready = st.ready ∧
      (failureEffect st).overridePrompt = st.overridePrompt ∧
      (failureEffect st).overrideHandled = st.overrideHandled ∧
      (failureEffect st).joints = st.joints := by
  unfold failureEffect
  split <;> exact ⟨rfl, rfl, rfl, rfl, rfl, rfl, rfl, rfl, rfl, rfl⟩

theorem runEffects_answered (st : CalState)
    (h : st.overrideHandled = true ∨ st.sessionId = none)
    (hp : st.overridePrompt = none) :
    (runEffects st).overrideHandled = st.overrideHandled ∧
      (runEffects st).sessionId = st.sessionId ∧
      (runEffects st).overridePrompt = none := by
  unfold runEffects
  have hd := overrideDetectEffect_keeps st
  have hdp := overrideDetectEffect_prompt_stays_none st h hp
  have hc := captureEffect_keeps (overrideDetectEffect st)
  have hf := failureEffect_keeps (captureEffect (overrideDetectEffect st))
  refine ⟨?_, ?_, ?_⟩
  · rw [hf.2.2.2.2.2.2.2.2.1, hc.2.2.2.2.2.2.1, hd.2.2.2.2.2.2.2.1]
  · rw [hf.1, hc.1, hd.1]
  · rw [hf.2.2.2.2.2.2.2.1, hc.2.2.2.2.2.1, hdp]

theorem calStep_answered (e : CalEvent) (st : CalState)
    (h : st.overrideHandled = true ∨ st.sessionId = none)
    (hp : st.overridePrompt = none) :
    ((calStep e st).overrideHandled = true ∨ (calStep e st).sessionId = none) ∧
      (calStep e st).overridePrompt = none := by
  cases e with
  | ws p =>
    have h1 : (applyWsMessage p st).overrideHandled = true ∨
        (applyWsMessage p st).sessionId = none := by
      rcases h with hh | hs
      · exact Or.inl hh
      · exact Or.inr hs
    have h2 : (applyWsMessage p st).overridePrompt = none := hp
    have := runEffects_answered (applyWsMessage p st) h1 h2
    refine ⟨?_, this.2.2⟩
    rcases h1 with hh | hs
    · exact Or.inl (this.1.trans hh)
    · exact Or.inr (this.2.1.trans hs)
  | sendEnter =>
    have hfix : sendEnterToCalibration st = st ∨
        sendEnterToCalibration st = { st with started := true } := by
      unfold sendEnterToCalibration
      rw [hp]
      cases hs : st.sessionId
      · exact Or.inl rfl
      · exact Or.inr rfl
    have hcal : calStep CalEvent.sendEnter st = runEffects (sendEnterToCalibration st) :=
      rfl
    rcases hfix with hfix | hfix
    · rw [hcal, hfix]
      have := runEffects_answered st h hp
      refine ⟨?_, this.2.2⟩
      rcases h with hh | hs
      · exact Or.inl (this.1.trans hh)
      · exact Or.inr (this.2.1.trans hs)
    · rw [hcal, hfix]
      have h2 : ({ st with started := true } : CalState).overrideHandled = true ∨
          ({ st with started := true } : CalState).sessionId = none := h
      have hp2 : ({ st with started := true } : CalState).overridePrompt = none := hp
      have := runEffects_answered { st with started := true } h2 hp2
      refine ⟨?_, this.2.2⟩
      rcases h with hh | hs
      · exact Or.inl (this.1.trans hh)
      · exact Or.inr (this.2.1.trans hs)
  | overrideContinue =>
    have hfix : continueCalibrationOverride st = st := by
      unfold continueCalibrationOverride
      rw [hp]
      cases hs : st.sessionId <;> rfl
    rw [calStep, hfix]
    have := runEffects_answered st h hp
    refine ⟨?_, this.2.2⟩
    rcases h with hh | hs
    · exact Or.inl (this.1.trans hh)
    · exact Or.inr (this.2.1.trans hs)
  | overrideCancel =>
    have h1 : (cancelCalibrationOverride st).sessionId = none := rfl
    have h2 : (cancelCalibrationOverride st).overridePrompt = none := rfl
    have := runEffects_answered (cancelCalibrationOverride st) (Or.inr h1) h2
    exact ⟨Or.inr (this.2.1.trans h1), this.2.2⟩

theorem calRun_answered (es : List CalEvent) (st : CalState)
    (h : st.overrideHandled = true ∨ st.sessionId = none)
    (hp : st.overridePrompt = none) :
    ((calRun st es).overrideHandled = true ∨ (calRun st es).sessionId = none) ∧
      (calRun st es).overridePrompt = none := by
  induction es generalizing st with
  | nil => exact ⟨h, hp⟩
  | cons e t ih =>
    have hstep := calStep_answered e st h hp
    exact ih (calStep e st) hstep.1 hstep.2

/-- Claim C7: once the override prompt has been answered — by
override-continue (the override-confirm byte) or by override-cancel (plain
confirm) — the handled flag is set (continue path) or the session torn down
(cancel path), and under every further event trace the same override prompt
is never re-detected, even though the matching line may remain in the log
buffer delivered by later payloads. -/
theorem overridePrompt_never_redetected (st : CalState) (p : OverridePrompt)
    (sid : String) (es : List CalEvent)
    (hs : st.sessionId = some sid) (hp : st.overridePrompt = some p)
    (hr : p.ready = true) :
    (calStep CalEvent.overrideContinue st).overrideHandled = true ∧
      (calStep CalEvent.overrideContinue st).overridePrompt = none ∧
      (calRun (calStep CalEvent.overrideContinue st) es).overridePrompt = none ∧
      (calStep CalEvent.overrideCancel st).overridePrompt = none ∧
      (calRun (calStep CalEvent.overrideCancel st) es).overridePrompt = none := by
  have hcont : continueCalibrationOverride st =
      { st with overridePrompt := none, overrideHandled := true, started := false } := by
    unfold continueCalibrationOverride
    simp [hs, hp, hr]
  have hh : (continueCalibrationOverride st).overrideHandled = true := by rw [hcont]
  have hpn : (continueCalibrationOverride st).overridePrompt = none := by rw [hcont]
  have hre := runEffects_answered (continueCalibrationOverride st) (Or.inl hh) hpn
  have hhandled : (calStep CalEvent.overrideContinue st).overrideHandled = true :=
    hre.1.trans hh
  have hprompt : (calStep CalEvent.overrideContinue st).overridePrompt = none :=
    hre.2.2
  have hcanc : calStep CalEvent.overrideCancel st =
      runEffects (cancelCalibrationOverride st) := rfl
  have hre2 := runEffects_answered (cancelCalibrationOverride st) (Or.inr rfl) rfl
  have hcprompt : (calStep CalEvent.overrideCancel st).overridePrompt = none := by
    rw [hcanc]; exact hre2.2.2
  have hcsid : (calStep CalEvent.overrideCancel st).sessionId = none := by
    rw [hcanc]; exact hre2.2.1
  exact ⟨hhandled, hprompt,
    (calRun_answered es _ (Or.inl hhandled) hprompt).2,
    hcprompt,
    (calRun_answered es _ (Or.inr hcsid) hcprompt).2⟩

/-- A concrete override prompt line used by the C7 witness. -/
def c7PromptLine : String :=
  "Press ENTER to use provided calibration file associated with the id s7"

/-- A concrete calibration state showing a ready override prompt. -/
def c7Demo : CalState :=
  ⟨some "s7", [c7PromptLine], true, none, [], false, false,
    some ⟨"s7", c7PromptLine, true⟩, false, [], false, []⟩

/-- Witness for C7: answering the prompt on a concrete session and then
replaying a payload that still carries the matching line re-detects
nothing. -/
theorem overridePrompt_never_redetected_witness :
    (calStep CalEvent.overrideContinue c7Demo).overrideHandled = true ∧
      (calStep CalEvent.overrideContinue c7Demo).overridePrompt = none ∧
      (calRun (calStep CalEvent.overrideContinue c7Demo)
          [CalEvent.ws ⟨[c7PromptLine], true, none, []⟩]).overridePrompt = none ∧
      (calStep CalEvent.overrideCancel c7Demo).overridePrompt = none ∧
      (calRun (calStep CalEvent.overrideCancel c7Demo)
          [CalEvent.ws ⟨[c7PromptLine], true, none, []⟩]).overridePrompt = none :=
  overridePrompt_never_redetected c7Demo ⟨"s7", c7PromptLine, true⟩ "s7"
    [CalEvent.ws ⟨[c7PromptLine], true, none, []⟩] rfl rfl rfl

theorem captureJoints_of_empty (st : CalState) (h : st.ranges = []) :
    captureJoints st = st := by
  unfold captureJoints
  simp [h]

theorem captureJoints_of_ne (st : CalState) (h : st.ranges ≠ []) :
    captureJoints st = { st with joints := st.ranges.map fun r =>
      { name := r.name, min := r.min, max := r.max, current := r.pos } } := by
  unfold captureJoints
  simp [h]

theorem captureEffect_fires (st : CalState) (sid : String)
    (hs : st.sessionId = some sid) (h2 : st.started = true) (h3 : st.ready = false)
    (hr : st.running = false) :
    captureEffect st = { captureJoints st with ready := true, started := false } := by
  unfold captureEffect
  simp only [hs]
  rw [if_pos ⟨h2, by simp [h3], by simp [hr]⟩]

theorem failureEffect_of_ok (st : CalState) (h : calibrationFailed st = false) :
    failureEffect st = st := by
  unfold failureEffect
  simp [h]

theorem upsertRow_ne_nil (acc : List RangeRow) (r : RangeRow) :
    upsertRow acc r ≠ [] := by
  unfold upsertRow
  split
  · rename_i hc
    intro hmap
    rw [List.map_eq_nil_iff] at hmap
    subst hmap
    simp at hc
  · simp

theorem foldl_upsertRow_ne_nil (rows : List RangeRow) (acc : List RangeRow)
    (h : acc ≠ []) : rows.foldl upsertRow acc ≠ [] := by
  induction rows generalizing acc with
  | nil => exact h
  | cons r t ih => exact ih (upsertRow acc r) (upsertRow_ne_nil acc r)

theorem buildRanges_ne_nil (rows : List RangeRow) (h : rows ≠ []) :
    buildRanges rows ≠ [] := by
  cases rows with
  | nil => exact absurd rfl h
  | cons r t =>
    show (r :: t).foldl upsertRow [] ≠ []
    rw [List.foldl_cons]
    exact foldl_upsertRow_ne_nil t (upsertRow [] r) (upsertRow_ne_nil [] r)

theorem buildRanges_mem_name (rows : List RangeRow) (r : RangeRow) (hr : r ∈ rows) :
    ∃ y ∈ buildRanges rows, y.name = r.name := by
  have hlk := lookupRange_foldl_upsertRow rows [] r.name
  cases hls : lastSeen rows r.name with
  | none =>
    exfalso
    unfold lastSeen at hls
    rw [List.find?_eq_none] at hls
    exact (by simpa using hls r (List.mem_reverse.mpr hr))
  | some y =>
    rw [hls] at hlk
    have hy : lookupRange (buildRanges rows) r.name = some y := hlk
    refine ⟨y, List.mem_of_find?_eq_some hy, ?_⟩
    simpa using List.find?_some hy

/-- The final payload of the C1 scenario: the process exits with code 0 and
no range rows were ever observed. -/
def c1FinalPayload : WsPayload :=
  ⟨["Calibration process exited"], false, some 0, []⟩

/-- A started calibration session that has seen no range rows. -/
def c1Start : CalState :=
  ⟨some "s1", ["Connecting to the motors bus"], true, none, [], true, false,
    none, true, [⟨"base", -180, 180, 0⟩], false, []⟩

/-- The state derived after the zero-exit payload lands on `c1Start`. -/
def c1Final : CalState :=
  calStep (CalEvent.ws c1FinalPayload) c1Start

/-- Counterexample to C1 as stated: on a session whose process exited with
return code 0 and with `ranges` empty, the code derives `ready = true` (the
Captured state, with the seeded joints retained) and `calibrationFailed =
false` — not the Failed state the claim requires. -/
theorem calZeroExitEmptyRanges_counterexample :
    c1Final.running = false ∧ c1Final.returnCode = some 0 ∧
      c1Final.ranges = [] ∧ c1Final.ready = true ∧
      calibrationFailed c1Final = false ∧ c1Final.errorModal = false := by
  decide

/-- Amended C1 (what the code actually does): for every calibration session
with a live session id, a started sweep and the override prompt already
handled, a payload reporting exit code 0 with no range rows yields the
Captured state — `ready` becomes true, `calibrationFailed` stays false (it
requires a nonzero return code), and the previously seeded joints are
retained unchanged. -/
theorem calZeroExitEmptyRanges_amended (sid : String) (st : CalState)
    (p : WsPayload) (h1 : st.sessionId = some sid) (h2 : st.started = true)
    (h3 : st.ready = false) (h4 : st.overrideHandled = true)
    (h5 : p.running = false) (h6 : p.returnCode = some 0) (h7 : p.ranges = []) :
    (calStep (CalEvent.ws p) st).ready = true ∧
      calibrationFailed (calStep (CalEvent.ws p) st) = false ∧
      (calStep (CalEvent.ws p) st).joints = st.joints := by
  have hcal : calStep (CalEvent.ws p) st =
      failureEffect (captureEffect (overrideDetectEffect (applyWsMessage p st))) := rfl
  have hk := overrideDetectEffect_keeps (applyWsMessage p st)
  have hst : (overrideDetectEffect (applyWsMessage p st)).started = true :=
    (overrideDetectEffect_started_of_handled (applyWsMessage p st) h4).trans h2
  have hsid : (overrideDetectEffect (applyWsMessage p st)).sessionId = some sid :=
    hk.1.trans h1
  have hready : (overrideDetectEffect (applyWsMessage p st)).ready = false :=
    hk.2.2.2.2.2.1.trans h3
  have hrun : (overrideDetectEffect (applyWsMessage p st)).running = false :=
    hk.2.2.1.trans h5
  have hrg : (overrideDetectEffect (applyWsMessage p st)).ranges = [] := by
    rw [hk.2.2.2.2.1]
    show buildRanges p.ranges = []
    rw [h7]
    rfl
  have hrc : (overrideDetectEffect (applyWsMessage p st)).returnCode = some 0 :=
    hk.2.2.2.1.trans h6
  have hj : (overrideDetectEffect (applyWsMessage p st)).joints = st.joints :=
    hk.2.2.2.2.2.2.1
  have hcap := captureEffect_fires (overrideDetectEffect (applyWsMessage p st)) sid
    hsid hst hready hrun
  have hcj := captureJoints_of_empty (overrideDetectEffect (applyWsMessage p st)) hrg
  rw [hcap, hcj] at hcal
  have hfailed : calibrationFailed
      { overrideDetectEffect (applyWsMessage p st) with
        ready := true, started := false } = false := by
    unfold calibrationFailed
    show (!(overrideDetectEffect (applyWsMessage p st)).running && _) = false
    rw [hrun, hrc]
    simp
  rw [failureEffect_of_ok _ hfailed] at hcal
  rw [hcal]
  exact ⟨rfl, hfailed, hj⟩

/-- Witness for the amended C1 at the concrete session `c1Start`. -/
theorem calZeroExitEmptyRanges_amended_witness :
    (calStep (CalEvent.ws c1FinalPayload) c1Start).ready = true ∧
      calibrationFailed (calStep (CalEvent.ws c1FinalPayload) c1Start) = false ∧
      (calStep (CalEvent.ws c1FinalPayload) c1Start).joints = c1Start.joints :=
  calZeroExitEmptyRanges_amended "s1" c1Start c1FinalPayload rfl rfl rfl rfl rfl rfl rfl

/-- A freshly spawned calibration session: live session id, process
running, empty buffers, prompt unanswered, seed joints `j0`. -/
def freshCalSession (sid : String) (j0 : List Joint) : CalState :=
  ⟨some sid, [], true, none, [], false, false, none, false, j0, false, []⟩

/-- The C6 trace: the override prompt line appears, the operator sends the
override-confirm, the sweep is started, range rows stream in, and the
process exits with code 0. -/
def overrideScenarioEvents (promptLine : String) (rows : List RangeRow) :
    List CalEvent :=
  [CalEvent.ws ⟨[promptLine], true, none, []⟩,
   CalEvent.overrideContinue,
   CalEvent.sendEnter,
   CalEvent.ws ⟨[promptLine], true, none, rows⟩,
   CalEvent.ws ⟨[promptLine], false, some 0, rows⟩]

/-- Claim C6: for every session whose logs contain an override-prompt line,
followed by an override-confirm input, followed by range rows, followed by
exit code 0, the terminal derived state is Captured (`ready = true`) with
every seen joint present in the captured joints, and never Failed. -/
theorem calibrationOverrideScenario (sid promptLine : String)
    (rows : List RangeRow) (j0 : List Joint)
    (hmarker : hasOverrideMarker promptLine = true) (hrows : rows ≠ []) :
    (calRun (freshCalSession sid j0) (overrideScenarioEvents promptLine rows)).ready =
        true ∧
      calibrationFailed
          (calRun (freshCalSession sid j0) (overrideScenarioEvents promptLine rows)) =
        false ∧
      ∀ r ∈ rows,
        ∃ j ∈ (calRun (freshCalSession sid j0)
          (overrideScenarioEvents promptLine rows)).joints, j.name = r.name := by
  have hne : buildRanges rows ≠ [] := buildRanges_ne_nil rows hrows
  have h1 : calStep (CalEvent.ws ⟨[promptLine], true, none, []⟩)
      (freshCalSession sid j0) =
      ⟨some sid, [promptLine], true, none, [], false, false,
        some ⟨sid, promptLine, true⟩, false, j0, false, []⟩ := by
    simp [calStep, applyWsMessage, runEffects, overrideDetectEffect,
      clearMismatchedPrompt, detectPromptLine, captureEffect, captureJoints,
      failureEffect, calibrationFailed, freshCalSession, buildRanges,
      List.find?, hmarker]
  have h2 : calStep CalEvent.overrideContinue
      (⟨some sid, [promptLine], true, none, [], false, false,
        some ⟨sid, promptLine, true⟩, false, j0, false, []⟩ : CalState) =
      ⟨some sid, [promptLine], true, none, [], false, false, none, true, j0,
        false, []⟩ := by
    simp [calStep, continueCalibrationOverride, runEffects, overrideDetectEffect,
      clearMismatchedPrompt, detectPromptLine, captureEffect, captureJoints,
      failureEffect, calibrationFailed, List.find?, hmarker]
  have h3 : calStep CalEvent.sendEnter
      (⟨some sid, [promptLine], true, none, [], false, false, none, true, j0,
        false, []⟩ : CalState) =
      ⟨some sid, [promptLine], true, none, [], true, false, none, true, j0,
        false, []⟩ := by
    simp [calStep, sendEnterToCalibration, runEffects, overrideDetectEffect,
      clearMismatchedPrompt, detectPromptLine, captureEffect, captureJoints,
      failureEffect, calibrationFailed, List.find?, hmarker]
  have h4 : calStep (CalEvent.ws ⟨[promptLine], true, none, rows⟩)
      (⟨some sid, [promptLine], true, none, [], true, false, none, true, j0,
        false, []⟩ : CalState) =
      ⟨some sid, [promptLine], true, none, buildRanges rows, true, false, none,
        true, j0, false, []⟩ := by
    simp [calStep, applyWsMessage, runEffects, overrideDetectEffect,
      clearMismatchedPrompt, detectPromptLine, captureEffect, captureJoints,
      failureEffect, calibrationFailed, List.find?, hmarker]
  have h5 : calStep (CalEvent.ws ⟨[promptLine], false, some 0, rows⟩)
      (⟨some sid, [promptLine], true, none, buildRanges rows, true, false, none,
        true, j0, false, []⟩ : CalState) =
      ⟨some sid, [promptLine], false, some 0, buildRanges rows, false, true,
        none, true, (buildRanges rows).map fun r =>
          { name := r.name, min := r.min, max := r.max, current := r.pos },
        false, []⟩ := by
    simp [calStep, applyWsMessage, runEffects, overrideDetectEffect,
      clearMismatchedPrompt, detectPromptLine, captureEffect, captureJoints,
      failureEffect, calibrationFailed, List.find?, hmarker, hne]
  have hrun : calRun (freshCalSession sid j0) (overrideScenarioEvents promptLine rows) =
      ⟨some sid, [promptLine], false, some 0, buildRanges rows, false, true,
        none, true, (buildRanges rows).map fun r =>
          { name := r.name, min := r.min, max := r.max, current := r.pos },
        false, []⟩ := by
    show (calStep (CalEvent.ws ⟨[promptLine], false, some 0, rows⟩)
      (calStep (CalEvent.ws ⟨[promptLine], true, none, rows⟩)
        (calStep CalEvent.sendEnter
          (calStep CalEvent.overrideContinue
            (calStep (CalEvent.ws ⟨[promptLine], true, none, []⟩)
              (freshCalSession sid j0)))))) = _
    rw [h1, h2, h3, h4, h5]
  rw [hrun]
  refine ⟨rfl, by simp [calibrationFailed], ?_⟩
  intro r hr
  obtain ⟨y, hy, hyn⟩ := buildRanges_mem_name rows r hr
  exact ⟨⟨y.name, y.min, y.max, y.pos⟩,
    List.mem_map.mpr ⟨y, hy, rfl⟩, hyn⟩

/-- Witness for C6 at a concrete session: the standard prompt line, three
range rows for `base`, `elbow` and `wrist`, and a zero exit code. -/
theorem calibrationOverrideScenario_witness :
    (calRun (freshCalSession "s6" [])
        (overrideScenarioEvents c7PromptLine
          [⟨"base", -10, 0, 10⟩, ⟨"elbow", -20, 0, 20⟩, ⟨"wrist", -30, 0, 30⟩])).ready =
        true ∧
      calibrationFailed
          (calRun (freshCalSession "s6" [])
            (overrideScenarioEvents c7PromptLine
              [⟨"base", -10, 0, 10⟩, ⟨"elbow", -20, 0, 20⟩, ⟨"wrist", -30, 0, 30⟩])) =
        false ∧
      ∀ r ∈ [(⟨"base", -10, 0, 10⟩ : RangeRow), ⟨"elbow", -20, 0, 20⟩,
          ⟨"wrist", -30, 0, 30⟩],
        ∃ j ∈ (calRun (freshCalSession "s6" [])
          (overrideScenarioEvents c7PromptLine
            [⟨"base", -10, 0, 10⟩, ⟨"elbow", -20, 0, 20⟩,
              ⟨"wrist", -30, 0, 30⟩])).joints, j.name = r.name :=
  calibrationOverrideScenario "s6" c7PromptLine
    [⟨"base", -10, 0, 10⟩, ⟨"elbow", -20, 0, 20⟩, ⟨"wrist", -30, 0, 30⟩] []
    (by decide) (by decide)

end LerobotPanel
